import Mathlib

/-!
# Verification of the firecracker-python microVM orchestrator

A shallow embedding of `firecracker/microvm.py` (class `MicroVM`) in Lean 4,
together with theorems settling the specification claims about it.

Modelling conventions:
* Python exceptions are modelled by `Except PyErr`; `raise` is `.error`,
  a normal `return` of a string is `.ok`.
* Side effects on the host (directory creation, process spawn, firewall rule
  programming, registry file writes, ...) are recorded as an ordered
  `List Action` trace, returned alongside the result.
* IPv4 addresses are modelled as natural numbers (their 32-bit integer value);
  Python compares the dotted-quad *strings* of addresses inside one /24, and
  that rendering is injective, so string equality coincides with `Nat`
  equality on addresses.
* Collaborator modules that are not part of the analysed source
  (`vmm.py`, `network.py`, `process.py`, `config.py`, `utils.py`) are either
  treated as nondeterministic environment inputs or, where a claim depends on
  their behaviour, modelled from the specification (marked
  `Modelled from the spec:` in the doc comment).
-/

namespace Firecracker

/-- The error kinds raised by the orchestrator
(`firecracker.exceptions` plus Python's built-in `ValueError`).
`str(e)` of an exception is its message, modelled by `PyErr.msg`. -/
inductive PyErr where
  | configurationError (m : String)
  | valueError (m : String)
  | processError (m : String)
  | apiError (m : String)
  | vmmError (m : String)
  deriving Repr, DecidableEq

/-- Python's `str(e)`: the message carried by the exception. -/
def PyErr.msg : PyErr → String
  | .configurationError m => m
  | .valueError m => m
  | .processError m => m
  | .apiError m => m
  | .vmmError m => m

/-- Whether an error is a `ConfigurationError`. -/
def PyErr.isConfigurationError : PyErr → Bool
  | .configurationError _ => true
  | _ => false

/-! ## Characters and strings as Python sees them

`_parse_ports` classifies string tokens with `str.isdigit` and converts them
with `int(...)`.  These two disagree on Unicode "digit" characters that are
not decimal digits: for example `"²"` (U+00B2 SUPERSCRIPT TWO) satisfies
`"²".isdigit() == True` while `int("²")` raises `ValueError` (CPython's
`int` accepts only characters of Unicode category Nd).  The character
alphabet below is restricted to the classes that matter for the parser:
decimal digits, one representative non-decimal digit character (`sup2`),
the comma separator, whitespace (for `str.strip`), and any other
non-digit character. -/

/-- A character of a Python string, classified as `_parse_ports` sees it. -/
inductive PChar where
  /-- a decimal digit `0`-`9` -/
  | digit (d : Fin 10)
  /-- a character (such as U+00B2 SUPERSCRIPT TWO) for which `str.isdigit()`
  is `True` but which `int()` rejects -/
  | sup2
  /-- the comma separator -/
  | comma
  /-- a whitespace character removed by `str.strip()` -/
  | space
  /-- any other character (letters, punctuation, ...) -/
  | other
  deriving Repr, DecidableEq

/-- Python `c.isdigit()` on a single character. -/
def PChar.isdigitChar : PChar → Bool
  | .digit _ => true
  | .sup2 => true
  | _ => false

/-- The decimal value `int(...)` assigns to a single character, when any. -/
def PChar.decVal : PChar → Option Nat
  | .digit d => some d.val
  | _ => none

/-- Python `s.isdigit()`: nonempty and every character a digit. -/
def isdigitStr (s : List PChar) : Bool :=
  !s.isEmpty && s.all PChar.isdigitChar

/-- Python `s.strip()` restricted to our alphabet: drop leading and trailing
whitespace characters. -/
def pyStrip (s : List PChar) : List PChar :=
  ((s.dropWhile (· = PChar.space)).reverse.dropWhile (· = PChar.space)).reverse

/-- Python `int(s)` on a string all of whose characters `isdigit` accepted:
succeeds iff every character is a true decimal digit, returning the decimal
value; otherwise (`sup2` present) `int` raises `ValueError`. -/
def pyIntOpt (s : List PChar) : Option Int :=
  if !s.isEmpty && s.all (fun c => c.decVal.isSome) then
    some (Int.ofNat (Nat.ofDigits 10 ((s.map (fun c => c.decVal.getD 0)).reverse)))
  else
    none

/-- Helper for `pySplit`. -/
def pySplitAux : List PChar → List PChar → List (List PChar)
  | [], acc => [acc.reverse]
  | .comma :: rest, acc => acc.reverse :: pySplitAux rest []
  | c :: rest, acc => pySplitAux rest (c :: acc)

/-- Python `s.split(",")`. -/
def pySplit (s : List PChar) : List (List PChar) :=
  pySplitAux s []

/-- A Python value, as far as `_parse_ports` discriminates inputs:
`None`, `int`, `str`, `list`, or a value of any other type (represented by
`float` and `dict`, the two examples the claims mention). -/
inductive PyVal where
  | none
  | int (n : Int)
  | str (s : List PChar)
  | list (xs : List PyVal)
  | float
  | dict
  deriving Repr

/-- The comma-branch list comprehension of `_parse_ports`:
`[int(p.strip()) for p in port_value.split(",") if p.strip().isdigit()]`.
Elements are visited left to right; a token passing `isdigit` whose `int`
conversion fails raises out of the comprehension. -/
def parseCommaTokens : List (List PChar) → Except PyErr (List Int)
  | [] => .ok []
  | t :: rest =>
    let t' := pyStrip t
    if isdigitStr t' then
      match pyIntOpt t' with
      | some n => (parseCommaTokens rest).map (n :: ·)
      | none => .error (.valueError "invalid literal for int() with base 10")
    else
      parseCommaTokens rest

/-- The list-branch loop of `_parse_ports`: keep `int` elements, convert
digit strings (`int(p)` raising on non-decimal digit characters), silently
skip everything else. -/
def parseListElems : List PyVal → Except PyErr (List Int)
  | [] => .ok []
  | .int n :: rest => (parseListElems rest).map (n :: ·)
  | .str t :: rest =>
    if isdigitStr t then
      match pyIntOpt t with
      | some n => (parseListElems rest).map (n :: ·)
      | none => .error (.valueError "invalid literal for int() with base 10")
    else
      parseListElems rest
  | _ :: rest => parseListElems rest

/-- `MicroVM._parse_ports(port_value)` (called with `default_value=None`):
`None` yields `[]`; an `int` yields a singleton; a string containing a comma
is split and filtered through `isdigit`; a digit-only string yields its
value; any other string falls through the `isinstance(port_value, list)`
check to `return []`; a list keeps `int` elements and digit strings; any
other type yields `[]`. -/
def parse_ports : PyVal → Except PyErr (List Int)
  | .none => .ok []
  | .int n => .ok [n]
  | .str s =>
    if PChar.comma ∈ s then
      parseCommaTokens (pySplit s)
    else if isdigitStr s then
      match pyIntOpt s with
      | some n => .ok [n]
      | none => .error (.valueError "invalid literal for int() with base 10")
    else
      .ok []
  | .list xs => parseListElems xs
  | .float => .ok []
  | .dict => .ok []

/-! ### Derived notions used to state the parser claims -/

/-- A token consisting purely of decimal digits (and nonempty): exactly the
tokens on which `isdigit` succeeds and `int` cannot raise. -/
def digitTok (t : List PChar) : Bool :=
  !t.isEmpty && t.all (fun c => c.decVal.isSome)

/-- The integer value of a decimal-digit token (junk value on others). -/
def tokVal (t : List PChar) : Int :=
  (pyIntOpt t).getD 0

/-- The contribution of one comma-separated token to the parsed port list:
stripped, kept iff `isdigit` accepts it. -/
def tokenPort (t : List PChar) : Option Int :=
  if isdigitStr (pyStrip t) then pyIntOpt (pyStrip t) else none

/-- The contribution of one list element to the parsed port list. -/
def elemPort : PyVal → Option Int
  | .int n => some n
  | .str t => if isdigitStr t then pyIntOpt t else none
  | _ => none

/-- A string with no digit-but-not-decimal character. -/
def strNoSup2 (s : List PChar) : Bool :=
  s.all (· ≠ PChar.sup2)

/-- A list element whose string content (if any) has no digit-but-not-decimal
character.  Only top-level strings matter: nested lists and other types are
skipped by the parser without inspection. -/
def elemNoSup2 : PyVal → Bool
  | .str s => strNoSup2 s
  | _ => true

/-- A value on which `int()` is never reached with a non-decimal digit. -/
def valNoSup2 : PyVal → Bool
  | .str s => strNoSup2 s
  | .list xs => xs.all elemNoSup2
  | _ => true

/-- `",".join(ts)`: interleave tokens with commas. -/
def commaJoin : List (List PChar) → List PChar
  | [] => []
  | [t] => t
  | t :: ts@(_ :: _) => t ++ PChar.comma :: commaJoin ts

/-! ### Parser lemmas -/

theorem mem_pyStrip {c : PChar} {t : List PChar} (h : c ∈ pyStrip t) : c ∈ t := by
  unfold pyStrip at h
  rw [List.mem_reverse] at h
  have h2 := (List.dropWhile_sublist (l := (t.dropWhile (· = PChar.space)).reverse)
    (p := (· = PChar.space))).mem h
  rw [List.mem_reverse] at h2
  exact (List.dropWhile_sublist (l := t) (p := (· = PChar.space))).mem h2

theorem dropWhile_space_of_not_mem {l : List PChar} (h : PChar.space ∉ l) :
    l.dropWhile (· = PChar.space) = l := by
  cases l with
  | nil => rfl
  | cons c rest =>
    have hc : ¬(c = PChar.space) := fun hc => h (hc ▸ List.mem_cons_self _ _)
    simp [List.dropWhile_cons, hc]

theorem pyStrip_of_no_space {t : List PChar} (h : PChar.space ∉ t) :
    pyStrip t = t := by
  rw [pyStrip, dropWhile_space_of_not_mem h,
    dropWhile_space_of_not_mem (by simpa using h), List.reverse_reverse]

theorem digitTok_no_space {t : List PChar} (h : digitTok t = true) :
    PChar.space ∉ t := by
  unfold digitTok at h
  simp only [Bool.and_eq_true, List.all_eq_true] at h
  intro hc
  have := h.2 _ hc
  simp [PChar.decVal] at this

theorem pyStrip_of_digitTok {t : List PChar} (h : digitTok t = true) :
    pyStrip t = t :=
  pyStrip_of_no_space (digitTok_no_space h)

theorem isdigitStr_of_digitTok {t : List PChar} (h : digitTok t = true) :
    isdigitStr t = true := by
  unfold digitTok at h
  unfold isdigitStr
  simp only [Bool.and_eq_true, List.all_eq_true] at h ⊢
  refine ⟨h.1, fun c hc => ?_⟩
  have := h.2 c hc
  cases c <;> simp_all [PChar.decVal, PChar.isdigitChar]

theorem pyIntOpt_isSome_of_digitTok {t : List PChar} (h : digitTok t = true) :
    (pyIntOpt t).isSome = true := by
  unfold digitTok at h
  unfold pyIntOpt
  simp only [Bool.and_eq_true, List.all_eq_true] at h
  rw [if_pos]
  · rfl
  · simp only [Bool.and_eq_true, List.all_eq_true]
    exact h

theorem digitTok_of_isdigit_noSup2 {t : List PChar}
    (hd : isdigitStr t = true) (hn : PChar.sup2 ∉ t) : digitTok t = true := by
  unfold isdigitStr at hd
  unfold digitTok
  simp only [Bool.and_eq_true, List.all_eq_true] at hd ⊢
  refine ⟨hd.1, fun c hc => ?_⟩
  have h1 := hd.2 c hc
  cases c <;> simp_all [PChar.isdigitChar, PChar.decVal]

theorem digitTok_no_comma {t : List PChar} (h : digitTok t = true) :
    PChar.comma ∉ t := by
  unfold digitTok at h
  simp only [Bool.and_eq_true, List.all_eq_true] at h
  intro hc
  have := h.2 _ hc
  simp [PChar.decVal] at this

theorem digitTok_no_sup2 {t : List PChar} (h : digitTok t = true) :
    PChar.sup2 ∉ t := by
  unfold digitTok at h
  simp only [Bool.and_eq_true, List.all_eq_true] at h
  intro hc
  have := h.2 _ hc
  simp [PChar.decVal] at this

theorem pySplitAux_no_comma {t : List PChar} (h : PChar.comma ∉ t) :
    ∀ acc, pySplitAux t acc = [acc.reverse ++ t] := by
  induction t with
  | nil => intro acc; simp [pySplitAux]
  | cons c rest ih =>
    intro acc
    have hc : c ≠ PChar.comma := fun hc => h (hc ▸ List.mem_cons_self _ _)
    have hrest : PChar.comma ∉ rest := fun hm => h (List.mem_cons_of_mem _ hm)
    cases c with
    | comma => exact absurd rfl hc
    | digit d => simp [pySplitAux, ih hrest]
    | sup2 => simp [pySplitAux, ih hrest]
    | space => simp [pySplitAux, ih hrest]
    | other => simp [pySplitAux, ih hrest]

theorem pySplitAux_append {t : List PChar} (h : PChar.comma ∉ t) :
    ∀ acc s, pySplitAux (t ++ PChar.comma :: s) acc =
      (acc.reverse ++ t) :: pySplitAux s [] := by
  induction t with
  | nil => intro acc s; simp [pySplitAux]
  | cons c rest ih =>
    intro acc s
    have hc : c ≠ PChar.comma := fun hc => h (hc ▸ List.mem_cons_self _ _)
    have hrest : PChar.comma ∉ rest := fun hm => h (List.mem_cons_of_mem _ hm)
    cases c with
    | comma => exact absurd rfl hc
    | digit d => simp [pySplitAux, ih hrest]
    | sup2 => simp [pySplitAux, ih hrest]
    | space => simp [pySplitAux, ih hrest]
    | other => simp [pySplitAux, ih hrest]

/-- Splitting a comma-join recovers the tokens (comma-free tokens, ≥ 1). -/
theorem pySplit_commaJoin {ts : List (List PChar)} (hne : ts ≠ [])
    (h : ∀ t ∈ ts, PChar.comma ∉ t) : pySplit (commaJoin ts) = ts := by
  induction ts with
  | nil => exact absurd rfl hne
  | cons t rest ih =>
    cases rest with
    | nil =>
      rw [commaJoin, pySplit, pySplitAux_no_comma (h t (List.mem_cons_self _ _))]
      simp
    | cons t2 rest2 =>
      rw [commaJoin, pySplit,
        pySplitAux_append (h t (List.mem_cons_self _ _))]
      have := ih (by simp) (fun u hu => h u (List.mem_cons_of_mem _ hu))
      rw [pySplit] at this
      rw [this]
      simp

theorem comma_mem_commaJoin {t t2 : List PChar} {rest : List (List PChar)} :
    PChar.comma ∈ commaJoin (t :: t2 :: rest) := by
  rw [commaJoin]
  simp

/-- The comma branch on sup2-free tokens: every token contributes per
`tokenPort`, and no exception is raised. -/
theorem parseCommaTokens_no_sup2 {ts : List (List PChar)}
    (h : ∀ t ∈ ts, PChar.sup2 ∉ t) :
    parseCommaTokens ts = .ok (ts.filterMap tokenPort) := by
  induction ts with
  | nil => rfl
  | cons t rest ih =>
    have hrest := ih (fun u hu => h u (List.mem_cons_of_mem _ hu))
    have ht : PChar.sup2 ∉ pyStrip t :=
      fun hm => h t (List.mem_cons_self _ _) (mem_pyStrip hm)
    rw [parseCommaTokens, List.filterMap_cons]
    by_cases hd : isdigitStr (pyStrip t) = true
    · have hsome := pyIntOpt_isSome_of_digitTok (digitTok_of_isdigit_noSup2 hd ht)
      obtain ⟨n, hn⟩ := Option.isSome_iff_exists.mp hsome
      simp only [hd, if_true, hn, hrest, tokenPort, Except.map]
    · simp only [Bool.not_eq_true] at hd
      simp only [hd, Bool.false_eq_true, if_false, hrest, tokenPort]

/-- The list branch on elements with sup2-free strings: every element
contributes per `elemPort`, and no exception is raised. -/
theorem parseListElems_no_sup2 {xs : List PyVal}
    (h : ∀ x ∈ xs, elemNoSup2 x = true) :
    parseListElems xs = .ok (xs.filterMap elemPort) := by
  induction xs with
  | nil => rfl
  | cons x rest ih =>
    have hrest := ih (fun u hu => h u (List.mem_cons_of_mem _ hu))
    have hx := h x (List.mem_cons_self _ _)
    cases x with
    | int n => rw [parseListElems, List.filterMap_cons]; simp [elemPort, hrest, Except.map]
    | str t =>
      have ht : PChar.sup2 ∉ t := by
        simp only [elemNoSup2, strNoSup2, List.all_eq_true, decide_eq_true_eq] at hx
        intro hm
        exact (hx _ hm) rfl
      rw [parseListElems, List.filterMap_cons]
      by_cases hd : isdigitStr t = true
      · have hsome := pyIntOpt_isSome_of_digitTok (digitTok_of_isdigit_noSup2 hd ht)
        obtain ⟨n, hn⟩ := Option.isSome_iff_exists.mp hsome
        simp only [elemPort, hd, if_true, hn, hrest, Except.map]
      · simp only [Bool.not_eq_true] at hd
        simp only [elemPort, hd, Bool.false_eq_true, if_false, hrest]
    | none => simp [parseListElems, List.filterMap_cons, elemPort, hrest]
    | list ys => simp [parseListElems, List.filterMap_cons, elemPort, hrest]
    | float => simp [parseListElems, List.filterMap_cons, elemPort, hrest]
    | dict => simp [parseListElems, List.filterMap_cons, elemPort, hrest]

theorem tokenPort_of_digitTok {t : List PChar} (h : digitTok t = true) :
    tokenPort t = some (tokVal t) := by
  rw [tokenPort, pyStrip_of_digitTok h, if_pos (isdigitStr_of_digitTok h)]
  obtain ⟨n, hn⟩ := Option.isSome_iff_exists.mp (pyIntOpt_isSome_of_digitTok h)
  rw [tokVal, hn]
  rfl

theorem elemPort_str_of_digitTok {t : List PChar} (h : digitTok t = true) :
    elemPort (.str t) = some (tokVal t) := by
  rw [elemPort, if_pos (isdigitStr_of_digitTok h)]
  obtain ⟨n, hn⟩ := Option.isSome_iff_exists.mp (pyIntOpt_isSome_of_digitTok h)
  rw [tokVal, hn]
  rfl

theorem filterMap_tokenPort_of_digit : ∀ {ts : List (List PChar)},
    (∀ t ∈ ts, digitTok t = true) → ts.filterMap tokenPort = ts.map tokVal := by
  intro ts
  induction ts with
  | nil => intro _; rfl
  | cons t rest ih =>
    intro h
    rw [List.filterMap_cons, tokenPort_of_digitTok (h t (List.mem_cons_self _ _)),
      List.map_cons, ih (fun u hu => h u (List.mem_cons_of_mem _ hu))]

theorem filterMap_elemPort_str_of_digit : ∀ {ts : List (List PChar)},
    (∀ t ∈ ts, digitTok t = true) →
      (ts.map PyVal.str).filterMap elemPort = ts.map tokVal := by
  intro ts
  induction ts with
  | nil => intro _; rfl
  | cons t rest ih =>
    intro h
    rw [List.map_cons, List.filterMap_cons,
      elemPort_str_of_digitTok (h t (List.mem_cons_self _ _)),
      List.map_cons, ih (fun u hu => h u (List.mem_cons_of_mem _ hu))]

theorem mem_pySplitAux : ∀ (s acc t : List PChar) (c : PChar),
    t ∈ pySplitAux s acc → c ∈ t → c ∈ s ∨ c ∈ acc := by
  intro s
  induction s with
  | nil =>
    intro acc t c ht hc
    simp only [pySplitAux, List.mem_singleton] at ht
    subst ht
    right
    simpa using hc
  | cons x rest ih =>
    intro acc t c ht hc
    cases x with
    | comma =>
      rw [pySplitAux] at ht
      rcases List.mem_cons.mp ht with h1 | h2
      · subst h1
        right
        simpa using hc
      · rcases ih [] t c h2 hc with h | h
        · exact .inl (List.mem_cons_of_mem _ h)
        · simp at h
    | digit d =>
      simp only [pySplitAux] at ht
      rcases ih _ t c ht hc with h | h
      · exact .inl (List.mem_cons_of_mem _ h)
      · rcases List.mem_cons.mp h with h' | h'
        · exact .inl (h' ▸ List.mem_cons_self _ _)
        · exact .inr h'
    | sup2 =>
      simp only [pySplitAux] at ht
      rcases ih _ t c ht hc with h | h
      · exact .inl (List.mem_cons_of_mem _ h)
      · rcases List.mem_cons.mp h with h' | h'
        · exact .inl (h' ▸ List.mem_cons_self _ _)
        · exact .inr h'
    | space =>
      simp only [pySplitAux] at ht
      rcases ih _ t c ht hc with h | h
      · exact .inl (List.mem_cons_of_mem _ h)
      · rcases List.mem_cons.mp h with h' | h'
        · exact .inl (h' ▸ List.mem_cons_self _ _)
        · exact .inr h'
    | other =>
      simp only [pySplitAux] at ht
      rcases ih _ t c ht hc with h | h
      · exact .inl (List.mem_cons_of_mem _ h)
      · rcases List.mem_cons.mp h with h' | h'
        · exact .inl (h' ▸ List.mem_cons_self _ _)
        · exact .inr h'

theorem mem_of_mem_pySplit {s t : List PChar} {c : PChar}
    (ht : t ∈ pySplit s) (hc : c ∈ t) : c ∈ s := by
  rcases mem_pySplitAux s [] t c ht hc with h | h
  · exact h
  · simp at h

theorem strNoSup2_of_not_mem {t : List PChar} (h : PChar.sup2 ∉ t) :
    strNoSup2 t = true := by
  simp only [strNoSup2, List.all_eq_true, decide_eq_true_eq]
  intro c hc hceq
  exact h (hceq ▸ hc)

theorem not_mem_of_strNoSup2 {t : List PChar} (h : strNoSup2 t = true) :
    PChar.sup2 ∉ t := by
  simp only [strNoSup2, List.all_eq_true, decide_eq_true_eq] at h
  intro hm
  exact (h _ hm) rfl

theorem parseListElems_ints : ∀ (ns : List Int),
    parseListElems (ns.map PyVal.int) = .ok ns := by
  intro ns
  induction ns with
  | nil => rfl
  | cons n rest ih => rw [List.map_cons, parseListElems, ih]; rfl

/-! ## Claim C4: the port-specification forms and silent dropping -/

/-- **C4** — counterexample.  The claim says non-digit tokens appearing in
the string form are silently dropped rather than causing an error, and that
comma-separated digit strings normalize to integer lists.  Both readings
fail on the input `"1,²"` (U+00B2 SUPERSCRIPT TWO): `"²"` is not a decimal
number, but `"²".isdigit()` is `True`, so the comprehension guard keeps the
token and `int("²")` raises `ValueError` — the call raises instead of
returning a list. -/
theorem parse_ports_superscript_not_dropped :
    parse_ports (.str [PChar.digit 1, PChar.comma, PChar.sup2]) =
      .error (.valueError "invalid literal for int() with base 10") := rfl

/-- **C4** (amended): for every port specification that is absent, a single
integer, a comma-separated string of decimal digits, or a list of
integers / decimal-digit-strings, `_parse_ports` returns the same ordered
list of integers (absent yields the empty list); in the comma-string and
list forms, non-digit tokens are silently dropped (`tokenPort` / `elemPort`
describe each token's contribution) — provided no token contains a
character that `str.isdigit` accepts but `int()` rejects (such as `"²"`),
on which the parser instead raises `ValueError`. -/
theorem parse_ports_forms_agree :
    parse_ports .none = .ok [] ∧
    (∀ n : Int, parse_ports (.int n) = .ok [n]) ∧
    (∀ ns : List Int, parse_ports (.list (ns.map PyVal.int)) = .ok ns) ∧
    (∀ ts : List (List PChar), (∀ t ∈ ts, digitTok t = true) →
      parse_ports (.str (commaJoin ts)) = .ok (ts.map tokVal) ∧
      parse_ports (.list (ts.map PyVal.str)) = .ok (ts.map tokVal)) ∧
    (∀ ts : List (List PChar), 2 ≤ ts.length →
      (∀ t ∈ ts, PChar.sup2 ∉ t ∧ PChar.comma ∉ t) →
      parse_ports (.str (commaJoin ts)) = .ok (ts.filterMap tokenPort)) ∧
    (∀ xs : List PyVal, (∀ x ∈ xs, elemNoSup2 x = true) →
      parse_ports (.list xs) = .ok (xs.filterMap elemPort)) := by
  refine ⟨rfl, fun n => rfl, ?_, ?_, ?_, ?_⟩
  · intro ns
    simp only [parse_ports]
    exact parseListElems_ints ns
  · intro ts h
    constructor
    · match ts, h with
      | [], _ =>
        rw [show commaJoin [] = [] from by rw [commaJoin]]
        rfl
      | [t], h =>
        have hd := h t (List.mem_cons_self _ _)
        simp only [commaJoin, parse_ports]
        rw [if_neg (digitTok_no_comma hd), if_pos (isdigitStr_of_digitTok hd)]
        obtain ⟨n, hn⟩ := Option.isSome_iff_exists.mp (pyIntOpt_isSome_of_digitTok hd)
        rw [hn, List.map_cons, List.map_nil, tokVal, hn]
        rfl
      | t :: t2 :: rest, h =>
        simp only [parse_ports]
        rw [if_pos comma_mem_commaJoin,
          pySplit_commaJoin (by simp) (fun u hu => digitTok_no_comma (h u hu)),
          parseCommaTokens_no_sup2 (fun u hu => digitTok_no_sup2 (h u hu)),
          filterMap_tokenPort_of_digit h]
    · simp only [parse_ports]
      rw [parseListElems_no_sup2 (by
        intro x hx
        obtain ⟨t, ht, rfl⟩ := List.mem_map.mp hx
        exact strNoSup2_of_not_mem (digitTok_no_sup2 (h t ht))),
        filterMap_elemPort_str_of_digit h]
  · intro ts hlen h
    match ts, hlen, h with
    | t :: t2 :: rest, _, h =>
      simp only [parse_ports]
      rw [if_pos comma_mem_commaJoin,
        pySplit_commaJoin (by simp) (fun u hu => (h u hu).2),
        parseCommaTokens_no_sup2 (fun u hu => (h u hu).1)]
  · intro xs h
    simp only [parse_ports]
    exact parseListElems_no_sup2 h

/-- Witness for the amended C4 theorem: the comma-string form `"8,10"`,
whose tokens are decimal-digit tokens, parses to `[8, 10]`. -/
theorem parse_ports_forms_agree_witness :
    (∀ t ∈ [[PChar.digit 8], [PChar.digit 1, PChar.digit 0]], digitTok t = true) ∧
    parse_ports
      (.str (commaJoin [[PChar.digit 8], [PChar.digit 1, PChar.digit 0]])) =
      .ok [(8 : Int), 10] := by
  refine ⟨by decide, ?_⟩
  have h := (parse_ports_forms_agree.2.2.2.1
    [[PChar.digit 8], [PChar.digit 1, PChar.digit 0]] (by decide)).1
  rw [h]
  rfl

/-! ## Claim C10: totality of the port parser -/

/-- **C10** — counterexample.  The claim says the parser is total: it never
raises, for every input value whatsoever.  But on the one-character string
`"²"` (U+00B2 SUPERSCRIPT TWO) the guard `"²".isdigit()` is `True`, so the
parser calls `int("²")`, which raises `ValueError`. -/
theorem parse_ports_superscript_raises :
    parse_ports (.str [PChar.sup2]) =
      .error (.valueError "invalid literal for int() with base 10") := rfl

/-- **C10** (amended): `_parse_ports` never raises — returning a list of
integers — for every input whose strings contain no digit-but-non-decimal
character (such as `"²"`, on which it raises `ValueError`); moreover a
comma-free string failing `isdigit` yields the empty list, and values of a
type other than `None`/`int`/`str`/`list` (e.g. a float or a dict) yield the
empty list. -/
theorem parse_ports_total_without_special_digits :
    (∀ v, valNoSup2 v = true → ∃ l, parse_ports v = .ok l) ∧
    (∀ s, PChar.comma ∉ s → isdigitStr s = false → parse_ports (.str s) = .ok []) ∧
    parse_ports .float = .ok [] ∧ parse_ports .dict = .ok [] := by
  refine ⟨?_, ?_, rfl, rfl⟩
  · intro v hv
    match v, hv with
    | .none, _ => exact ⟨[], rfl⟩
    | .int n, _ => exact ⟨[n], rfl⟩
    | .float, _ => exact ⟨[], rfl⟩
    | .dict, _ => exact ⟨[], rfl⟩
    | .str s, hv =>
      have hs : PChar.sup2 ∉ s := not_mem_of_strNoSup2 hv
      simp only [parse_ports]
      by_cases hc : PChar.comma ∈ s
      · rw [if_pos hc, parseCommaTokens_no_sup2
          (fun t ht hm => hs (mem_of_mem_pySplit ht hm))]
        exact ⟨_, rfl⟩
      · rw [if_neg hc]
        by_cases hd : isdigitStr s = true
        · rw [if_pos hd]
          obtain ⟨n, hn⟩ := Option.isSome_iff_exists.mp
            (pyIntOpt_isSome_of_digitTok (digitTok_of_isdigit_noSup2 hd hs))
          rw [hn]
          exact ⟨[n], rfl⟩
        · rw [if_neg hd]
          exact ⟨[], rfl⟩
    | .list xs, hv =>
      have h : ∀ x ∈ xs, elemNoSup2 x = true := by
        simpa [valNoSup2, List.all_eq_true] using hv
      simp only [parse_ports]
      rw [parseListElems_no_sup2 h]
      exact ⟨_, rfl⟩
  · intro s hc hd
    simp only [parse_ports]
    rw [if_neg hc, if_neg (by simp [hd])]

/-- Witness for the amended C10 theorem: a heterogeneous list containing an
`int`, a non-digit string and a float parses without raising. -/
theorem parse_ports_total_witness :
    valNoSup2 (.list [PyVal.int 5, PyVal.str [PChar.other], PyVal.float]) = true ∧
    ∃ l, parse_ports (.list [PyVal.int 5, PyVal.str [PChar.other], PyVal.float]) =
      .ok l :=
  ⟨by decide, parse_ports_total_without_special_digits.1 _ (by decide)⟩

/-! ## Pause / resume (claim C5) -/

/-- A JSON value stored in the `State.Paused` entry of `config.json`:
a created instance's document holds a boolean there, while `pause`/`resume`
overwrite it with the *strings* `"true"` / `"false"`
(`config["State"]["Paused"] = "true"`). -/
inductive JVal where
  | bool (b : Bool)
  | str (s : String)
  deriving Repr, DecidableEq

/-- The persisted per-instance state that `pause`/`resume` mutate: the
record's state field (kept by the registry through `update_vmm_state`) and
the raw `State.Paused` entry of `config.json` (rewritten in place by
`MicroVM.pause`/`MicroVM.resume`). -/
structure InstanceState where
  state : String
  pausedRaw : JVal
  deriving Repr, DecidableEq

/-- Modelled from the spec: `VMMManager.update_vmm_state(id, state)`
(`vmm.py`, not under `src/`) — §4.5's `update_state(id, state)`, a
read-modify-write of the instance document storing the given state value in
the record's state field. -/
def update_vmm_state (s : String) (st : InstanceState) : InstanceState :=
  { st with state := s }

/-- `MicroVM.pause`: `update_vmm_state(id, "Paused")`, then rewrite the
document with `config["State"]["Paused"] = "true"` (a JSON string). -/
def pause (st : InstanceState) : InstanceState :=
  { update_vmm_state "Paused" st with pausedRaw := .str "true" }

/-- `MicroVM.resume`: `update_vmm_state(id, "Resumed")` — the literal
`"Resumed"`, not `"Running"` — then `config["State"]["Paused"] = "false"`. -/
def resume (st : InstanceState) : InstanceState :=
  { update_vmm_state "Resumed" st with pausedRaw := .str "false" }

/-- **C5** — counterexample: for a running instance (a successful `create`
persists state `Running`, §8's end-to-end scenario), pause followed by
resume does not restore the persisted state field to its pre-pause value:
the state field ends as `"Resumed"` (not `"Running"`), and the
`State.Paused` entry ends as the JSON string `"false"` rather than the
boolean `false`. -/
theorem pause_resume_not_restore :
    resume (pause ⟨"Running", .bool false⟩) ≠ ⟨"Running", .bool false⟩ := by
  decide

/-- **C5** (amended): pause followed by resume leaves the persisted state
field at `"Resumed"` and `State.Paused` at the string `"false"` regardless
of the pre-pause values — it does not restore them; pause on an
already-paused instance is idempotent in effect (pausing twice equals
pausing once, and the post-condition state is `"Paused"` either way). -/
theorem pause_resume_behaviour (st : InstanceState) :
    (resume (pause st)).state = "Resumed" ∧
    (resume (pause st)).pausedRaw = .str "false" ∧
    pause (pause st) = pause st ∧
    (pause (pause st)).state = "Paused" :=
  ⟨rfl, rfl, rfl, rfl⟩

/-! ## Effect traces for the stateful operations -/

/-- One externally visible, state-mutating effect of the orchestrator. -/
inductive Action where
  | ensureSocketFile
  | createVmmDir
  | copyRootfs
  | createLogFile
  | startScreen
  | cleanupResources
  | configureBoot
  | configureDrive
  | configureResources
  | createTap
  | putNetworkIface
  | configureMmds
  | instanceStart
  | addPortForward (hostPort destPort : Int)
  | deletePortForward (hostPort destPort : Int)
  | createVmmJsonFile (id : String) (ip : Nat) (ports : List (Int × Int))
  | deleteVmm (id : String)
  | closeApi
  deriving Repr, DecidableEq

/-! ## Process supervisor: `_run_firecracker` (claim C3) -/

/-- The effects of `_run_firecracker`'s preparation steps, in order: ensure
the socket file, create the three instance directories (root, `rootfs/`,
`logs/`), copy the base rootfs to the instance's private copy, create the
two log files, and start the firecracker binary in a screen session. -/
def preTrace : List Action :=
  [.ensureSocketFile, .createVmmDir, .createVmmDir, .createVmmDir,
   .copyRootfs, .createLogFile, .createLogFile, .startScreen]

/-- Environment for `_run_firecracker`: whether (and after how many
preparation effects, with which exception message) a preparation step
raises; whether `psutil.pid_exists` sees the screen process alive at poll
attempt `r`; whether the API socket file exists at poll attempt `r`. -/
structure FcEnv where
  preFailAfter : Option (Nat × String) := none
  pidAlive : Nat → Bool := fun _ => true
  socketExists : Nat → Bool := fun _ => true

/-- The retry loop of `_run_firecracker` (`for retry in range(3)`): at each
attempt a dead process raises `ProcessError` at once (no retry); an
existing socket file returns the API handle; if the budget is exhausted
without the socket appearing, `APIError` is raised. -/
def fcPoll (env : FcEnv) : Nat → Nat → Except PyErr Unit
  | _, 0 => .error (.apiError "Failed to connect to the API socket after 3 attempts")
  | retry, fuel + 1 =>
    if ¬ env.pidAlive retry then
      .error (.processError "Firecracker process is not running")
    else if env.socketExists retry then
      .ok ()
    else
      fcPoll env (retry + 1) fuel

/-- `MicroVM._run_firecracker`: the preparation steps followed by the
bounded poll; any exception raised in the `try` block triggers
`self._vmm.cleanup_resources(self._microvm_id)` and is re-raised as
`VMMError(str(exc))`. -/
def run_firecracker (env : FcEnv) : Except PyErr Unit × List Action :=
  match env.preFailAfter with
  | some (k, m) => (.error (.vmmError m), preTrace.take k ++ [.cleanupResources])
  | none =>
    match fcPoll env 0 3 with
    | .ok _ => (.ok (), preTrace)
    | .error e => (.error (.vmmError e.msg), preTrace ++ [.cleanupResources])

theorem getLast?_append_singleton (l : List Action) (a : Action) :
    (l ++ [a]).getLast? = some a := by
  induction l with
  | nil => rfl
  | cons x rest ih =>
    rw [List.cons_append, List.getLast?_cons, ih]
    simp

/-- **C3**: for every failure inside `_run_firecracker` — the child process
found dead, the socket-wait retry budget exhausted, or any other exception
in its body — `cleanup_resources` for the instance id is invoked as the
last effect before the (wrapped) error propagates to the caller. -/
theorem run_firecracker_cleanup_on_failure (env : FcEnv) (e : PyErr)
    (h : (run_firecracker env).1 = .error e) :
    (run_firecracker env).2.getLast? = some .cleanupResources := by
  unfold run_firecracker at h ⊢
  match henv : env.preFailAfter with
  | some (k, m) => exact getLast?_append_singleton _ _
  | none =>
    match hp : fcPoll env 0 3 with
    | .ok _ => rw [hp, henv] at h; simp at h
    | .error e' => exact getLast?_append_singleton _ _

/-- Witness for C3: with the child process dead at the first poll, the run
fails with the wrapped `ProcessError` message and the trace ends with the
cleanup invocation. -/
theorem run_firecracker_cleanup_witness :
    (run_firecracker { pidAlive := fun _ => false }).1 =
      .error (.vmmError "Firecracker process is not running") ∧
    (run_firecracker { pidAlive := fun _ => false }).2.getLast? =
      some .cleanupResources :=
  ⟨rfl, run_firecracker_cleanup_on_failure _ _ rfl⟩

/-! ## The instance registry view -/

/-- One entry of `VMMManager.list_vmm()` as `create`/`delete`/`port_forward`
consume it: the instance id, its name, and the `IPAddress` stored under
`Network["tap_<id>"]` in the instance's document (`none` when the document
has no proper `Network` entry — such records contribute no address to the
collision scan). -/
structure VmmRecord where
  id : String
  name : String
  ip : Option Nat
  deriving Repr, DecidableEq

/-- The addresses already assigned to active instances, as `create` collects
them (`existing_ips`). -/
def existingIps (vmms : List VmmRecord) : List Nat :=
  vmms.filterMap (·.ip)

/-- Modelled from the spec: `VMMManager.check_network_overlap(ip)`
(`vmm.py`, not under `src/`) — §4.5's `check_ip_in_use(ip)`, a scan of all
non-deleted records for the address. -/
def checkNetworkOverlap (vmms : List VmmRecord) (ip : Nat) : Bool :=
  (existingIps vmms).contains ip

/-! ## The /24 collision scan of `create` (claim C1) -/

/-- The network base of `IPv4Network(f"{ip}/24", strict=False)`. -/
def subnetBase (ip : Nat) : Nat := ip / 256 * 256

/-- `ip_net.hosts()`: the 254 host addresses of the /24, ascending. -/
def subnetHosts (ip : Nat) : List Nat :=
  (List.range 254).map (fun i => subnetBase ip + 1 + i)

/-- The three checks of the collision loop: not the gateway, not the
originally requested IP, not an address already in use. -/
def ipAvailable (gw orig : Nat) (existing : List Nat) (c : Nat) : Bool :=
  c != gw && c != orig && !existing.contains c

/-- The `for ip in ip_net.hosts(): ... break / else:` search: the first host
address passing all three checks, if any. -/
def findAvailableIp (gw orig : Nat) (existing : List Nat) : Option Nat :=
  (subnetHosts orig).find? (ipAvailable gw orig existing)

theorem subnetHosts_sorted (ip : Nat) : (subnetHosts ip).Pairwise (· < ·) := by
  unfold subnetHosts
  refine List.Pairwise.map _ (fun a b hab => ?_) (List.pairwise_lt_range 254)
  omega

theorem find?_first_sorted {p : Nat → Bool} : ∀ {l : List Nat},
    l.Pairwise (· < ·) → ∀ {a}, l.find? p = some a →
    ∀ b ∈ l, b < a → p b = false := by
  intro l
  induction l with
  | nil => intro _ a h; simp [List.find?] at h
  | cons x rest ih =>
    intro hp a h b hb hlt
    by_cases hx : p x = true
    · rw [List.find?_cons_of_pos _ hx] at h
      obtain rfl : x = a := by injection h
      rcases List.mem_cons.mp hb with rfl | hbr
      · exact absurd hlt (lt_irrefl _)
      · exact absurd ((List.pairwise_cons.mp hp).1 b hbr) (not_lt_of_gt hlt)
    · rw [List.find?_cons_of_neg _ hx] at h
      rcases List.mem_cons.mp hb with rfl | hbr
      · exact Bool.not_eq_true _ ▸ (by simpa using hx)
      · exact ih (List.pairwise_cons.mp hp).2 h b hbr hlt

/-! ## `port_forward` (claim C6) -/

/-- A value passed as `host_port`/`dest_port` to `port_forward`: `None`, an
`int`, a `list` of ints, or a value of any other type. -/
inductive PortArg where
  | none
  | int (n : Int)
  | list (l : List Int)
  | other
  deriving Repr, DecidableEq

/-- Python truthiness check `not host_port`: `None`, `0` and `[]` are
falsy. -/
def PortArg.falsy : PortArg → Bool
  | .none => true
  | .int n => n == 0
  | .list l => l.isEmpty
  | .other => false

/-- `isinstance(port, (int, list))`. -/
def PortArg.isIntOrList : PortArg → Bool
  | .int _ => true
  | .list _ => true
  | _ => false

/-- `[port] if isinstance(port, int) else port`. -/
def PortArg.normalize : PortArg → List Int
  | .int n => [n]
  | .list l => l
  | _ => []

/-- Environment read by `port_forward`: the registry and the host IP. -/
structure PfEnv where
  vmms : List VmmRecord
  hostIp : Nat := 0

/-- The `try` block of `MicroVM.port_forward`.  The second `dest_ip`
check (`if not dest_ip`) cannot fire separately in this model, since an
address, when present, is a number; a record without a proper `Network`
entry raises the network-configuration error as in the source. -/
def portForwardBody (env : PfEnv) (id : String) (hostPort destPort : PortArg)
    (remove : Bool) : Except PyErr String × List Action :=
  if env.vmms.isEmpty then (.ok "No VMMs available to forward ports", [])
  else if ¬ id ∈ env.vmms.map (·.id) then
    (.ok ("VMM with ID " ++ id ++ " does not exist"), [])
  else
    match (env.vmms.find? (fun r => r.id == id)).bind (·.ip) with
    | Option.none =>
      (.error (.vmmError ("Network configuration not found for VMM " ++ id)), [])
    | some _destIp =>
      if hostPort.falsy || destPort.falsy then
        (.error (.valueError "Both host_port and dest_port must be provided"), [])
      else if !(hostPort.isIntOrList && destPort.isIntOrList) then
        (.error (.valueError "Ports must be integers or lists of integers"), [])
      else
        let hs := hostPort.normalize
        let ds := destPort.normalize
        if hs.length != ds.length then
          (.error (.valueError
            "Number of host ports must match number of destination ports"), [])
        else
          let dir := if remove then "removed" else "added"
          (.ok ("Port forwarding " ++ dir ++ " successfully"),
            (hs.zip ds).map (fun q =>
              if remove then Action.deletePortForward q.1 q.2
              else Action.addPortForward q.1 q.2))

/-- `MicroVM.port_forward`: the body with its blanket
`except Exception: raise VMMError(f"Failed to configure port forwarding: ...")`. -/
def port_forward (env : PfEnv) (id : String) (hostPort destPort : PortArg)
    (remove : Bool) : Except PyErr String × List Action :=
  match portForwardBody env id hostPort destPort remove with
  | (.ok s, tr) => (.ok s, tr)
  | (.error e, tr) =>
    (.error (.vmmError ("Failed to configure port forwarding: " ++ e.msg)), tr)

/-- **C6**: when the host and destination port specifications normalize to
lists of different lengths, `port_forward` fails with the validation error
(wrapped into `VMMError` by the blanket handler) before any rule is applied:
no forwarding rule is added or removed and nothing is written — the effect
trace is empty, so the registry is unchanged and rules are never truncated
to the shorter list. -/
theorem port_forward_length_mismatch (env : PfEnv) (id : String)
    (hostPort destPort : PortArg) (remove : Bool) (r : VmmRecord) (d : Nat)
    (hne : env.vmms.isEmpty = false)
    (hid : id ∈ env.vmms.map (·.id))
    (hr : env.vmms.find? (fun r => r.id == id) = some r)
    (hip : r.ip = some d)
    (hth : hostPort.falsy = false) (htd : destPort.falsy = false)
    (hih : hostPort.isIntOrList = true) (hidl : destPort.isIntOrList = true)
    (hlen : hostPort.normalize.length ≠ destPort.normalize.length) :
    port_forward env id hostPort destPort remove =
      (.error (.vmmError ("Failed to configure port forwarding: " ++
        "Number of host ports must match number of destination ports")), []) := by
  unfold port_forward portForwardBody
  simp only [hne, hr, Option.some_bind, hip, hth, htd, hih, hidl]
  simp only [PyErr.msg]
  simp [hid, hlen]

/-- Witness for C6: `port_forward(host_port=[8080, 8081], dest_port=[80])`
against a registry holding one instance fails with the validation error and
applies nothing. -/
theorem port_forward_length_mismatch_witness :
    port_forward { vmms := [⟨"i1", "n1", some 258⟩] } "i1"
      (.list [8080, 8081]) (.list [80]) false =
      (.error (.vmmError ("Failed to configure port forwarding: " ++
        "Number of host ports must match number of destination ports")), []) :=
  port_forward_length_mismatch _ _ _ _ _ ⟨"i1", "n1", some 258⟩ 258
    rfl (by decide) rfl rfl rfl rfl rfl rfl (by decide)

/-! ## `create` (claims C1, C2, C7) -/

/-- The per-instance inputs of `create`, as resolved by `__init__`:
generated id, resolved name, requested IP, and the port-forwarding
settings (`_host_port`/`_dest_port` are already parsed lists). -/
structure InstParams where
  id : String
  name : String
  ip0 : Nat
  exposePorts : Bool := false
  hostPorts : List Int := []
  destPorts : List Int := []
  mmdsEnabled : Bool := false

/-- Environment of one `create` call: the registry as `list_vmm()` returns
it at entry, the process-supervisor environment, the outcomes of the
collaborator calls (`some m` = that step raises with message `m`), the
gateway computation of the host-networking collaborator
(`NetworkManager.get_gateway_ip`), and the final liveness check. -/
structure CreateEnv where
  vmms : List VmmRecord
  fc : FcEnv := {}
  cfgFail : Option String := none
  gatewayOf : Nat → Nat
  reconfigFail : Option String := none
  startFail : Option String := none
  hostIp : Nat := 0
  processRunning : Bool := true

/-- The effects of a successful `_basic_config`: boot source, root drive,
machine resources, network interface (tap + API call), and MMDS when
enabled.  A failing sub-step raises `ConfigurationError`, re-wrapped by
`_basic_config` into `ConfigurationError(str(exc))`; the
`return "Failed to configure VMM"` branch of `create` is unreachable since
`_basic_config` either returns `True` or raises. -/
def basicConfigTrace (mmds : Bool) : List Action :=
  [.configureBoot, .configureDrive, .configureResources, .createTap,
    .putNetworkIface] ++ (if mmds then [.configureMmds] else [])

/-- The tail of `create`'s `try` block after network identity is settled:
`InstanceStart`, optional best-effort port forwarding (its result and any
exception are swallowed; only its effects remain), the `Ports` map from
`zip(host_ports, dest_ports)`, the liveness check, and either the registry
write (`create_vmm_json_file`, persisting the resolved IP) or
`delete_vmm`. -/
def createAfterNetwork (env : CreateEnv) (p : InstParams) (ip : Nat)
    (tr : List Action) : Except PyErr String × List Action :=
  match env.startFail with
  | some m => (.error (.apiError m), tr)
  | Option.none =>
    let tr2 := tr ++ [.instanceStart]
    let tr3 :=
      if p.exposePorts && !p.hostPorts.isEmpty && !p.destPorts.isEmpty then
        tr2 ++ (port_forward { vmms := env.vmms, hostIp := env.hostIp } p.id
          (.list p.hostPorts) (.list p.destPorts) false).2
      else tr2
    let ports := if p.exposePorts then p.hostPorts.zip p.destPorts else []
    if env.processRunning then
      (.ok ("VMM " ++ p.id ++ " is created successfully"),
        tr3 ++ [.createVmmJsonFile p.id ip ports])
    else
      (.ok ("VMM " ++ p.id ++ " failed to create"), tr3 ++ [.deleteVmm p.id])

/-- The `try` block of `MicroVM.create`: spawn the hypervisor, apply the
basic configuration, and on IP overlap scan the /24 for the first address
that is not the gateway, not the original IP and not in use — committing to
it and reconfiguring the network — or return the no-addresses-available
message when the scan is exhausted (the `for ... else` branch). -/
def createBody (env : CreateEnv) (p : InstParams) :
    Except PyErr String × List Action :=
  match run_firecracker env.fc with
  | (.error e, tr) => (.error e, tr)
  | (.ok _, tr0) =>
    match env.cfgFail with
    | some m => (.error (.configurationError m), tr0)
    | Option.none =>
      let tr1 := tr0 ++ basicConfigTrace p.mmdsEnabled
      if checkNetworkOverlap env.vmms p.ip0 then
        match findAvailableIp (env.gatewayOf p.ip0) p.ip0 (existingIps env.vmms) with
        | Option.none =>
          (.ok "Could not find an available IP address in the subnet", tr1)
        | some newIp =>
          match env.reconfigFail with
          | some m =>
            (.error (.configurationError ("Failed to configure network: " ++ m)), tr1)
          | Option.none =>
            createAfterNetwork env p newIp (tr1 ++ [.createTap, .putNetworkIface])
      else
        createAfterNetwork env p p.ip0 tr1

/-- `MicroVM.create`: the duplicate-name early return (before the `try`
block, hence with no effects), then the body with its
`except Exception: raise VMMError(...)` wrapper and the
`finally: self._api.close()`. -/
def create (env : CreateEnv) (p : InstParams) :
    Except PyErr String × List Action :=
  if p.name ∈ env.vmms.map (·.name) then
    (.ok ("VMM with name " ++ p.name ++ " already exists"), [])
  else
    match createBody env p with
    | (.ok s, tr) => (.ok s, tr ++ [.closeApi])
    | (.error e, tr) =>
      (.error (.vmmError ("Failed to create VMM " ++ p.id ++ ": " ++ e.msg)),
        tr ++ [.closeApi])

/-- **C1**: when the requested IP collides with an active instance's IP and
the scan finds an address, `create` succeeds and persists exactly the first
host address of the /24 (in ascending order) that is not the gateway, not
the originally requested IP, and not assigned to another active instance:
`a` is in the /24's host list, passes all three checks, and every smaller
host address fails them. -/
theorem create_collision_first_free (env : CreateEnv) (p : InstParams)
    (a : Nat) (fctr : List Action)
    (hname : ¬ p.name ∈ env.vmms.map (·.name))
    (hfc : run_firecracker env.fc = (.ok (), fctr))
    (hcfg : env.cfgFail = none)
    (hov : checkNetworkOverlap env.vmms p.ip0 = true)
    (hfind : findAvailableIp (env.gatewayOf p.ip0) p.ip0 (existingIps env.vmms) =
      some a)
    (hrc : env.reconfigFail = none)
    (hst : env.startFail = none)
    (hrun : env.processRunning = true) :
    (create env p).1 = .ok ("VMM " ++ p.id ++ " is created successfully") ∧
    Action.createVmmJsonFile p.id a
      (if p.exposePorts then p.hostPorts.zip p.destPorts else []) ∈
        (create env p).2 ∧
    a ∈ subnetHosts p.ip0 ∧
    ipAvailable (env.gatewayOf p.ip0) p.ip0 (existingIps env.vmms) a = true ∧
    ∀ b ∈ subnetHosts p.ip0, b < a →
      ipAvailable (env.gatewayOf p.ip0) p.ip0 (existingIps env.vmms) b = false := by
  have hfind' : (subnetHosts p.ip0).find?
      (ipAvailable (env.gatewayOf p.ip0) p.ip0 (existingIps env.vmms)) = some a := hfind
  have hmem : a ∈ subnetHosts p.ip0 := List.mem_of_find?_eq_some hfind'
  have hava := List.find?_some hfind'
  have hmin := find?_first_sorted (subnetHosts_sorted p.ip0) hfind'
  refine ⟨?_, ?_, hmem, hava, hmin⟩
  · simp only [create, createBody, createAfterNetwork, hfc, hcfg, hov, hfind,
      hrc, hst, hrun, if_neg hname, if_true]
  · simp only [create, createBody, createAfterNetwork, hfc, hcfg, hov, hfind,
      hrc, hst, hrun, if_neg hname, if_true]
    simp [List.mem_append]

/-- Concrete collision scenario for the C1 witness: one active instance
holds the requested address 258 (172.16.1.2-style, as a number); the
gateway convention is the first host of the /24. -/
def envC1 : CreateEnv :=
  { vmms := [⟨"vmA", "other", some 258⟩], gatewayOf := fun ip => subnetBase ip + 1 }

def pC1 : InstParams := { id := "newid", name := "newname", ip0 := 258 }

/-- Witness for C1: requesting 258 while it is taken resolves to 259 — the
first host after the gateway 257 and the original 258 — and persists it. -/
theorem create_collision_first_free_witness :
    checkNetworkOverlap envC1.vmms pC1.ip0 = true ∧
    (create envC1 pC1).1 = .ok ("VMM " ++ "newid" ++ " is created successfully") ∧
    Action.createVmmJsonFile "newid" 259 [] ∈ (create envC1 pC1).2 := by
  have h := create_collision_first_free envC1 pC1 259 preTrace
    (by decide) rfl rfl rfl rfl rfl rfl rfl
  exact ⟨rfl, h.1, by simpa using h.2.1⟩

/-- Concrete exhausted-subnet scenario for C2: 254 active instances occupy
every host address 257..510 of the /24 of the requested address 258. -/
def envC2 : CreateEnv :=
  { vmms := (List.range 254).map (fun i => ⟨"x", "x", some (257 + i)⟩),
    gatewayOf := fun ip => subnetBase ip + 1 }

def pC2 : InstParams := { id := "newid2", name := "fresh", ip0 := 258 }

set_option maxRecDepth 100000 in
/-- **C2** — the divergence, evaluated at a concrete input: with every host
address of the /24 unavailable, `create` does return the descriptive
no-addresses-available message, but it does **not** clean up the resources
created so far: the hypervisor was spawned (`startScreen` is in the trace)
and neither `cleanup_resources` nor `delete_vmm` is ever invoked — only the
API socket connection is closed by the `finally` block.  The
partially-started process and the instance directories are left behind. -/
theorem create_subnet_exhausted_no_cleanup :
    (create envC2 pC2).1 =
      .ok "Could not find an available IP address in the subnet" ∧
    Action.startScreen ∈ (create envC2 pC2).2 ∧
    ((create envC2 pC2).2.all (fun a => match a with
      | Action.cleanupResources => false
      | Action.deleteVmm _ => false
      | _ => true)) = true := by
  refine ⟨rfl, by decide, rfl⟩


/-- **C7**: a `create` whose resolved name equals an existing (non-deleted)
instance's name returns the name-already-exists outcome before the `try`
block: no process is spawned, no directory is created, no registry record
is written — the effect trace is empty. -/
theorem create_duplicate_name_no_mutation (env : CreateEnv) (p : InstParams)
    (h : p.name ∈ env.vmms.map (·.name)) :
    create env p = (.ok ("VMM with name " ++ p.name ++ " already exists"), []) := by
  unfold create
  rw [if_pos h]

/-- Witness for C7: creating a second instance named `taken`. -/
theorem create_duplicate_name_witness :
    create { vmms := [⟨"vmA", "taken", some 258⟩],
             gatewayOf := fun ip => subnetBase ip + 1 }
        { id := "newid3", name := "taken", ip0 := 260 } =
      (.ok ("VMM with name " ++ "taken" ++ " already exists"), []) :=
  create_duplicate_name_no_mutation _ _ (by decide)

/-! ## `delete` (claim C8) -/

/-- `MicroVM.delete(id, all)` with `id` already defaulted to the current
instance id (which is a generated, non-empty string, so the
`if not id and not all` branch is dead code — modelled nevertheless):
empty registry and batch deletion are reported; an unknown id returns the
not-found message with no effect; a known id is deleted. -/
def delete (vmms : List VmmRecord) (id : String) (all : Bool) :
    Except PyErr String × List Action :=
  if id.isEmpty && !all then (.ok "No VMM ID specified for deletion", [])
  else if vmms.isEmpty then (.ok "No VMMs available to delete", [])
  else if all then
    (.ok "All VMMs deleted successfully", vmms.map (fun r => .deleteVmm r.id))
  else if ¬ id ∈ vmms.map (·.id) then
    (.ok ("VMM with ID " ++ id ++ " not found"), [])
  else
    (.ok ("VMM " ++ id ++ " deleted successfully"), [.deleteVmm id])

/-- **C8**: `delete` on an id carried by no known (non-deleted) instance
reports a not-found outcome — "VMM with ID ... not found", or "No VMMs
available to delete" when the registry is empty — rather than raising, and
performs no deletion effect; hence deleting a previously deleted id a
second time reports and never raises. -/
theorem delete_unknown_id_reports (vmms : List VmmRecord) (id : String)
    (hid : ¬ id ∈ vmms.map (·.id)) (hne : id.isEmpty = false) :
    delete vmms id false =
      (.ok (if vmms.isEmpty then "No VMMs available to delete"
            else "VMM with ID " ++ id ++ " not found"), []) := by
  unfold delete
  by_cases h : vmms.isEmpty = true
  · simp [h, hne]
  · simp only [Bool.not_eq_true] at h
    simp [h, hne, hid]

/-- Witness for C8: deleting the unknown id `gone` from a one-instance
registry reports not-found with no effect. -/
theorem delete_unknown_id_witness :
    delete [⟨"vmA", "n", some 258⟩] "gone" false =
      (.ok (if ([(⟨"vmA", "n", some 258⟩ : VmmRecord)] : List VmmRecord).isEmpty
            then "No VMMs available to delete"
            else "VMM with ID " ++ "gone" ++ " not found"), []) :=
  delete_unknown_id_reports _ _ (by decide) rfl

/-! ## `__init__` configuration validation (claim C9) -/

/-- A Python value checked with `isinstance(-, int)`: an `int` (Python
booleans included, being an `int` subclass) or a value of another type. -/
inductive PyNum where
  | int (n : Int)
  | nonInt
  deriving Repr, DecidableEq

/-- The `__init__` arguments participating in the validation sequence, in
source order; `none` means the argument was omitted and the
`MicroVMConfig` default applies. -/
structure InitArgs where
  vcpu : Option PyNum := none
  memSizeMib : Option PyNum := none
  userDataFile : Option String := none
  rootfsUrl : Option String := none
  hostPort : PyVal := .none
  destPort : PyVal := .none
  ipSyntaxOk : Bool := true

/-- Host environment of `__init__`: file existence/readability for the
user-data file, the rootfs download outcome, and the `MicroVMConfig`
defaults (`config.py`, treated as environment inputs). -/
structure InitEnv where
  fileExists : String → Bool := fun _ => true
  fileReadOk : String → Bool := fun _ => true
  downloadOk : Bool := true
  downloadErrMsg : String := ""
  readErrMsg : String := ""
  defaultVcpu : Int := 1
  defaultMem : Int := 512

/-- The user-data-file block of `__init__`: a missing file raises
`ConfigurationError("User data file not found: ...")`; a read failure
raises `ConfigurationError("Error reading user data file ...")`. -/
def initUserData (env : InitEnv) (args : InitArgs) : Except PyErr Unit :=
  match args.userDataFile with
  | some f =>
    if !env.fileExists f then
      .error (.configurationError ("User data file not found: " ++ f))
    else if !env.fileReadOk f then
      .error (.configurationError
        ("Error reading user data file " ++ f ++ ": " ++ env.readErrMsg))
    else .ok ()
  | Option.none => .ok ()

/-- `MicroVM._download_rootfs`, called from `__init__` when a rootfs URL is
given: a non-http(s) scheme or a download failure raises `VMMError`. -/
def initRootfsUrl (env : InitEnv) (args : InitArgs) : Except PyErr Unit :=
  match args.rootfsUrl with
  | some u =>
    if !(u.startsWith "http://" || u.startsWith "https://") then
      .error (.vmmError ("Invalid URL: " ++ u))
    else if !env.downloadOk then
      .error (.vmmError
        ("Failed to download rootfs from " ++ u ++ ": " ++ env.downloadErrMsg))
    else .ok ()
  | Option.none => .ok ()

/-- Modelled from the spec: `validate_ip_address` (`utils.py`, not under
`src/`) — §4.1 requires valid IP syntax, failing with an error identifying
the field.  It runs after the vCPU/memory checks, so its error kind does
not affect claim C9. -/
def validate_ip_address (ok : Bool) : Except PyErr Unit :=
  if ok then .ok () else .error (.configurationError "Invalid IP address")

/-- The validation-relevant sequence of `MicroVM.__init__`, in source
order: user-data file handling, rootfs URL download, port parsing (which
can propagate `ValueError` from `int()`), then
`if not isinstance(self._vcpu, int) or self._vcpu <= 0: raise ValueError(...)`,
`if not isinstance(self._mem_size_mib, int) or self._mem_size_mib < 128: raise ValueError(...)`,
and finally the IP syntax validation.  Returns the resolved
(vcpu, mem, host ports, dest ports). -/
def initMicroVM (env : InitEnv) (args : InitArgs) :
    Except PyErr (Int × Int × List Int × List Int) :=
  match initUserData env args with
  | .error e => .error e
  | .ok _ =>
  match initRootfsUrl env args with
  | .error e => .error e
  | .ok _ =>
  match parse_ports args.hostPort with
  | .error e => .error e
  | .ok hostPorts =>
  match parse_ports args.destPort with
  | .error e => .error e
  | .ok destPorts =>
  match args.vcpu.getD (.int env.defaultVcpu) with
  | .nonInt => .error (.valueError "vcpu must be a positive integer")
  | .int v =>
  if v ≤ 0 then .error (.valueError "vcpu must be a positive integer")
  else
  match args.memSizeMib.getD (.int env.defaultMem) with
  | .nonInt => .error (.valueError "mem_size_mib must be valid")
  | .int m =>
  if m < 128 then .error (.valueError "mem_size_mib must be valid")
  else
  match validate_ip_address args.ipSyntaxOk with
  | .error e => .error e
  | .ok _ => .ok (v, m, hostPorts, destPorts)

/-- **C9** — counterexample: a vCPU count of 0 (everything else valid and
defaulted) makes `__init__` raise Python's built-in `ValueError`, which is
not a `ConfigurationError` — contradicting the claim that configuration
resolution fails with a `ConfigurationError`. -/
theorem init_invalid_vcpu_not_configuration_error :
    initMicroVM {} { vcpu := some (.int 0) } =
      .error (.valueError "vcpu must be a positive integer") ∧
    (PyErr.valueError "vcpu must be a positive integer").isConfigurationError =
      false :=
  ⟨rfl, rfl⟩

/-- **C9** (amended): with the earlier `__init__` steps not raising (no
user-data file, no rootfs URL, absent port arguments), a non-positive or
non-integer vCPU count fails with `ValueError "vcpu must be a positive
integer"` and a memory size below the 128 MiB minimum (or a non-integer
one) fails with `ValueError "mem_size_mib must be valid"` — each message
identifies the offending field, but the error kind is Python's
`ValueError`, not `ConfigurationError`. -/
theorem init_validation_value_errors (env : InitEnv) (args : InitArgs)
    (hud : args.userDataFile = none) (hurl : args.rootfsUrl = none)
    (hhp : args.hostPort = .none) (hdp : args.destPort = .none) :
    (∀ n : Int, args.vcpu = some (.int n) → n ≤ 0 →
      initMicroVM env args =
        .error (.valueError "vcpu must be a positive integer")) ∧
    (args.vcpu = some .nonInt →
      initMicroVM env args =
        .error (.valueError "vcpu must be a positive integer")) ∧
    (∀ v m : Int, args.vcpu = some (.int v) → 0 < v →
      args.memSizeMib = some (.int m) → m < 128 →
      initMicroVM env args = .error (.valueError "mem_size_mib must be valid")) ∧
    (∀ v : Int, args.vcpu = some (.int v) → 0 < v →
      args.memSizeMib = some .nonInt →
      initMicroVM env args = .error (.valueError "mem_size_mib must be valid")) := by
  refine ⟨?_, ?_, ?_, ?_⟩
  · intro n hv hle
    unfold initMicroVM initUserData initRootfsUrl
    rw [hud, hurl, hhp, hdp, hv]
    simp [hle, parse_ports]
  · intro hv
    unfold initMicroVM initUserData initRootfsUrl
    rw [hud, hurl, hhp, hdp, hv]
    simp [parse_ports]
  · intro v m hv hpos hm hlt
    unfold initMicroVM initUserData initRootfsUrl
    rw [hud, hurl, hhp, hdp, hv, hm]
    simp [hlt, not_le_of_gt hpos, parse_ports]
  · intro v hv hpos hm
    unfold initMicroVM initUserData initRootfsUrl
    rw [hud, hurl, hhp, hdp, hv, hm]
    simp [not_le_of_gt hpos, parse_ports]

/-- Witness for the amended C9 theorem: vcpu 2 with memory 64 MiB fails
with the memory `ValueError`. -/
theorem init_validation_witness :
    initMicroVM {} { vcpu := some (.int 2), memSizeMib := some (.int 64) } =
      .error (.valueError "mem_size_mib must be valid") :=
  (init_validation_value_errors {} _ rfl rfl rfl rfl).2.2.1 2 64 rfl
    (by decide) rfl (by decide)

end Firecracker
